import Mathlib

/-!
Verification development for the Google Trends scraper (src/main.js).

Strings from the JavaScript source are modelled as lists of characters
(`Str`).  Network effects are modelled by passing the decoded outcome of
each network call explicitly (`Except Unit _`, where `Except.error ()`
stands for a request that threw after exhausting its retries).  `JSON.parse`
is modelled by a small executable JSON decoder (`jsonDecode`) covering the
value shapes the scraper actually receives (objects, arrays, strings,
integers, booleans, null); it rejects any other leading byte, as the real
parser does.
-/

set_option linter.unusedVariables false

abbrev Str := List Char

/-- Whitespace as recognised by JavaScript `String.prototype.trim`
(restricted to the ASCII whitespace characters that can occur here). -/
def isWsChar (c : Char) : Bool :=
  c == ' ' || c == '\t' || c == '\n' || c == '\r' || c == '\x0b' || c == '\x0c'

/-- Model of JavaScript `String.prototype.trim`: drop whitespace from both
ends. -/
def trimStr (s : Str) : Str :=
  ((s.dropWhile isWsChar).reverse.dropWhile isWsChar).reverse

/-- Model of JavaScript `String.prototype.startsWith`: first argument is the
receiver, second the candidate leading segment. -/
def strStarts : Str → Str → Bool
  | _, [] => true
  | [], _ :: _ => false
  | c :: cs, p :: ps => c == p && strStarts cs ps

/-- JavaScript `a || b` on strings: the empty string is falsy. -/
def jsOrStr (a b : Str) : Str := if a.isEmpty then b else a

/-- The apostrophe character (code point 39). -/
def aposC : Char := Char.ofNat 39

/-- The backslash character (code point 92). -/
def bsC : Char := Char.ofNat 92

/-- JSON values, as produced by the model of `JSON.parse`. -/
inductive Json where
  | jnull
  | jbool (b : Bool)
  | jnum (n : Int)
  | jstr (s : Str)
  | jarr (elems : List Json)
  | jobj (fields : List (Str × Json))

/-- Whitespace accepted by `JSON.parse` between tokens. -/
def isJsonWs (c : Char) : Bool :=
  c == ' ' || c == '\t' || c == '\n' || c == '\r'

def skipWs (s : Str) : Str := s.dropWhile isJsonWs

/-- Decode one escape character of a JSON string literal. -/
def escChar (c : Char) : Option Char :=
  if c == '"' then some '"'
  else if c == bsC then some bsC
  else if c == '/' then some '/'
  else if c == 'n' then some '\n'
  else if c == 't' then some '\t'
  else if c == 'r' then some '\r'
  else if c == 'b' then some (Char.ofNat 8)
  else if c == 'f' then some (Char.ofNat 12)
  else none

/-- Parse the body of a JSON string literal (after the opening quote),
returning the decoded characters and the remaining input. -/
def parseStrBody : Str → Option (Str × Str)
  | [] => none
  | c :: cs =>
    if c == '"' then some ([], cs)
    else if c == bsC then
      match cs with
      | [] => none
      | e :: cs2 =>
        match escChar e, parseStrBody cs2 with
        | some ec, some (r, rest) => some (ec :: r, rest)
        | _, _ => none
    else
      match parseStrBody cs with
      | some (r, rest) => some (c :: r, rest)
      | none => none

def isDigitC (c : Char) : Bool := '0' ≤ c && c ≤ '9'

/-- Split off the maximal run of leading decimal digits. -/
def takeDigits : Str → Str × Str
  | [] => ([], [])
  | c :: cs =>
    if isDigitC c then
      let p := takeDigits cs
      (c :: p.1, p.2)
    else ([], c :: cs)

def digitsVal (ds : Str) : Nat :=
  ds.foldl (fun a c => a * 10 + (c.toNat - 48)) 0

/-- Parse a JSON integer (optional minus sign followed by digits). -/
def parseNum : Str → Option (Int × Str)
  | [] => none
  | c :: cs =>
    if c == '-' then
      match takeDigits cs with
      | ([], _) => none
      | (ds, r) => some (-(digitsVal ds : Int), r)
    else
      match takeDigits (c :: cs) with
      | ([], _) => none
      | (ds, r) => some ((digitsVal ds : Int), r)

/-- Match a literal tail such as `ull` of `null`. -/
def expectLit (lit s : Str) : Option Str :=
  if strStarts s lit then some (s.drop lit.length) else none

def ullS : Str := ['u', 'l', 'l']
def rueS : Str := ['r', 'u', 'e']
def alseS : Str := ['a', 'l', 's', 'e']

mutual

/-- Parse one JSON value; `fuel` bounds the nesting depth. -/
def parseVal : Nat → Str → Option (Json × Str)
  | 0, _ => none
  | Nat.succ fuel, s =>
    match skipWs s with
    | [] => none
    | c :: rest =>
      if c == 'n' then (expectLit ullS rest).map (fun r => (Json.jnull, r))
      else if c == 't' then (expectLit rueS rest).map (fun r => (Json.jbool true, r))
      else if c == 'f' then (expectLit alseS rest).map (fun r => (Json.jbool false, r))
      else if c == '"' then (parseStrBody rest).map (fun p => (Json.jstr p.1, p.2))
      else if c == '[' then
        match skipWs rest with
        | ']' :: r2 => some (Json.jarr [], r2)
        | _ => parseArrItems fuel rest []
      else if c == '{' then
        match skipWs rest with
        | '}' :: r2 => some (Json.jobj [], r2)
        | _ => parseObjItems fuel rest []
      else if c == '-' || isDigitC c then
        (parseNum (c :: rest)).map (fun p => (Json.jnum p.1, p.2))
      else none

/-- Parse the comma-separated elements of a JSON array. -/
def parseArrItems : Nat → Str → List Json → Option (Json × Str)
  | 0, _, _ => none
  | Nat.succ fuel, s, acc =>
    match parseVal fuel s with
    | none => none
    | some (v, r) =>
      match skipWs r with
      | ',' :: r2 => parseArrItems fuel r2 (acc ++ [v])
      | ']' :: r2 => some (Json.jarr (acc ++ [v]), r2)
      | _ => none

/-- Parse the comma-separated members of a JSON object. -/
def parseObjItems : Nat → Str → List (Str × Json) → Option (Json × Str)
  | 0, _, _ => none
  | Nat.succ fuel, s, acc =>
    match skipWs s with
    | '"' :: r =>
      match parseStrBody r with
      | none => none
      | some (k, r2) =>
        match skipWs r2 with
        | ':' :: r3 =>
          match parseVal fuel r3 with
          | none => none
          | some (v, r4) =>
            match skipWs r4 with
            | ',' :: r5 => parseObjItems fuel r5 (acc ++ [(k, v)])
            | '}' :: r5 => some (Json.jobj (acc ++ [(k, v)]), r5)
            | _ => none
        | _ => none
    | _ => none

end

/-- Model of `JSON.parse`: parse one value and require only trailing
whitespace after it. -/
def jsonDecode (s : Str) : Except Unit Json :=
  match parseVal (s.length + 1) s with
  | some (v, rest) => if (skipWs rest).isEmpty then Except.ok v else Except.error ()
  | none => Except.error ()

/-- The four-character anti-hijacking leader `)]}APOS` of trends responses. -/
def xssi4 : Str := [')', ']', '}', aposC]

/-- The six-character variant: the leader followed by a literal backslash and
the letter n (the JavaScript source spells it with an escaped backslash). -/
def xssiBsn : Str := xssi4 ++ [bsC, 'n']

/-- The five-character variant: the leader followed by a real newline. -/
def xssiNl : Str := xssi4 ++ ['\n']

/-- Error outcomes of `parseResponse` (main.js lines 39-54): `blocked` is the
thrown `Received HTML response...` error, `malformed` a `JSON.parse` failure. -/
inductive PErr where
  | blocked
  | malformed
deriving DecidableEq

/-- The leader-stripping chain of `parseResponse` (main.js lines 45-52),
byte-for-byte: the first branch tests the six-character escaped variant but
slices off only five characters. -/
def stripXssi (b : Str) : Str :=
  if strStarts b xssiBsn then b.drop 5
  else if strStarts b xssi4 then b.drop 4
  else if strStarts b xssiNl then b.drop 5
  else b

/-- Which branch of the stripping chain fires (0, 1, 2), if any. -/
def stripBranch (b : Str) : Option Nat :=
  if strStarts b xssiBsn then some 0
  else if strStarts b xssi4 then some 1
  else if strStarts b xssiNl then some 2
  else none

/-- `parseResponse` (main.js lines 39-54): reject trimmed bodies starting
with a `<` as blocked, otherwise strip the leader and JSON-decode. -/
def parseResponse (b : Str) : Except PErr Json :=
  if strStarts (trimStr b) ['<'] then Except.error PErr.blocked
  else
    match jsonDecode (stripXssi b) with
    | Except.ok v => Except.ok v
    | Except.error _ => Except.error PErr.malformed

/-- Outcome of a JavaScript async function call: a returned value, a thrown
error, or the implicit `undefined` return when the retry loop body never
runs. -/
inductive JsOutcome (ε α : Type) where
  | ret (a : α)
  | exn (e : ε)
  | undef
deriving DecidableEq

/-- The retry loop of `makeRequest` (main.js lines 97-134), from a given
attempt number: returns how many attempts were performed and the outcome.
`f attempt` is the outcome of the attempt-numbered request (issue the
request and decode it). -/
def makeRequestLoop (f : Nat → Except ε α) (maxRetries attempt : Nat) :
    Nat × JsOutcome ε α :=
  if attempt ≤ maxRetries then
    match f attempt with
    | Except.ok a => (1, JsOutcome.ret a)
    | Except.error e =>
      if attempt < maxRetries then
        let t := makeRequestLoop f maxRetries (attempt + 1)
        (t.1 + 1, t.2)
      else (1, JsOutcome.exn e)
  else (0, JsOutcome.undef)
termination_by maxRetries + 1 - attempt
decreasing_by omega

/-- `makeRequest` (main.js line 77): the retry loop starting at attempt 1. -/
def makeRequest (f : Nat → Except ε α) (maxRetries : Nat) : Nat × JsOutcome ε α :=
  makeRequestLoop f maxRetries 1

/-- JavaScript number results of `parseInt`: either NaN or an integer. -/
inductive JsNum where
  | nan
  | num (n : Int)
deriving DecidableEq

/-- Model of `parseInt(s, 10)`: skip leading whitespace, optional sign, then
the maximal run of digits; NaN when no digit follows. -/
def parseIntJs (s : Str) : JsNum :=
  let t := s.dropWhile isWsChar
  match t with
  | [] => JsNum.nan
  | c :: cs =>
    if c == '-' then
      match takeDigits cs with
      | ([], _) => JsNum.nan
      | (ds, _) => JsNum.num (-(digitsVal ds : Int))
    else if c == '+' then
      match takeDigits cs with
      | ([], _) => JsNum.nan
      | (ds, _) => JsNum.num (digitsVal ds)
    else
      match takeDigits t with
      | ([], _) => JsNum.nan
      | (ds, _) => JsNum.num (digitsVal ds)

/-- JavaScript `a || b` on numbers: `0` and `NaN` are falsy. -/
def jsOrNum (a b : JsNum) : JsNum :=
  match a with
  | JsNum.nan => b
  | JsNum.num n => if n = 0 then b else JsNum.num n

/-- The query parameters that `new URL(urlString).searchParams` exposes for
the four names `parseGoogleTrendsUrl` reads; `none` means the parameter is
absent from the URL. -/
structure UrlView where
  q : Option Str
  geo : Option Str
  date : Option Str
  cat : Option Str
deriving DecidableEq

/-- The value returned by `parseGoogleTrendsUrl` (main.js lines 290-308). -/
structure ParsedUrl where
  searchTerm : Str
  geo : Str
  timeRange : Str
  category : JsNum
deriving DecidableEq

def today12mS : Str := "today 12-m".toList
def zeroS : Str := "0".toList
def httpS : Str := "http".toList
def worldwideS : Str := "Worldwide".toList

/-- `parseGoogleTrendsUrl` (main.js lines 290-308).  The argument is the
outcome of `new URL(urlString)`: `none` when the constructor throws, in
which case the function returns null.  Each parameter is defaulted with the
JavaScript `get(name) || default` idiom: `searchParams.get` yields null for
an absent parameter and the empty string for a present-but-empty one, and
`||` treats both as falsy, so `v.x.getD []` (null becomes the empty string)
followed by `jsOrStr` models it exactly. -/
def parseGoogleTrendsUrl (u : Option UrlView) : Option ParsedUrl :=
  match u with
  | none => none
  | some v =>
    some { searchTerm := jsOrStr (v.q.getD []) []
           geo := jsOrStr (v.geo.getD []) []
           timeRange := jsOrStr (v.date.getD []) today12mS
           category := parseIntJs (jsOrStr (v.cat.getD []) zeroS) }

/-- The run-level defaults handed to `processSearchTerm` by `main`. -/
structure Globals where
  geo : Str
  timeRange : Str
  category : JsNum
deriving DecidableEq

/-- Result of the input-normalisation part of `processSearchTerm`
 (main.js lines 313-333): either rejected (the function returns null before
any network call) or a resolved query. -/
inductive NormResult where
  | invalid
  | query (searchTerm geo timeRange : Str) (category : JsNum)
deriving DecidableEq

/-- The head of `processSearchTerm` (main.js lines 313-333): URL detection,
parameter extraction and fallback to the run-level defaults. -/
def normalizeItem (input : Str) (uv : Option UrlView) (g : Globals) : NormResult :=
  let r :=
    if strStarts input httpS then
      match parseGoogleTrendsUrl uv with
      | some pu =>
        (pu.searchTerm, jsOrStr pu.geo g.geo, jsOrStr pu.timeRange g.timeRange,
         jsOrNum pu.category g.category)
      | none => (input, g.geo, g.timeRange, g.category)
    else (input, g.geo, g.timeRange, g.category)
  if r.1.isEmpty then NormResult.invalid
  else NormResult.query r.1 r.2.1 r.2.2.1 r.2.2.2

/-- A decoded element of a `rankedKeyword` list as it arrives from the
backend; fields other than `formattedValue` and `hasData` are never
inspected by the scraper and are elided. -/
structure RankedItemIn where
  formattedValue : Option Str
  hasData : Option Bool
deriving DecidableEq

/-- A ranked item after `getRelatedSearches` defaults its `hasData`. -/
structure RankedItemOut where
  formattedValue : Option Str
  hasData : Bool
deriving DecidableEq

/-- The per-item mapping of `getRelatedSearches` (main.js lines 260-263):
`hasData` defaults to true when absent. -/
def withHasData (it : RankedItemIn) : RankedItemOut :=
  { formattedValue := it.formattedValue, hasData := it.hasData.getD true }

def breakoutS : Str := "breakout".toList

/-- The per-item rising test of `getRelatedSearches` (main.js lines 266-269):
`formattedValue` contains a percent sign, or lower-cased equals breakout. -/
def risingMarker (it : RankedItemOut) : Bool :=
  match it.formattedValue with
  | none => false
  | some fv => fv.contains '%' || fv.map Char.toLower == breakoutS

/-- `items.some(...)` over the rising markers. -/
def isRisingList (items : List RankedItemOut) : Bool := items.any risingMarker

/-- One iteration of the `for (const list of rankedList)` loop of
`getRelatedSearches` (main.js lines 258-277).  The entry is `none` when the
list has no `rankedKeyword` field (the `if` guard skips it); the
accumulator is the pair (top, rising). -/
def classifyStep (acc : List RankedItemOut × List RankedItemOut)
    (entry : Option (List RankedItemIn)) :
    List RankedItemOut × List RankedItemOut :=
  match entry with
  | none => acc
  | some l =>
    let items := l.map withHasData
    if isRisingList items then (acc.1, items) else (items, acc.2)

/-- The whole classification loop over the decoded `rankedList`. -/
def classifyRanked (entries : List (Option (List RankedItemIn))) :
    List RankedItemOut × List RankedItemOut :=
  entries.foldl classifyStep ([], [])

/-- A widget descriptor as used by `processSearchTerm` and the fetchers:
its id, its token, and the two places a geo resolution can live
(`widget.resolution` and `widget.request.resolution`); `none` models an
absent field. -/
structure Widget where
  id : Str
  token : Option Str
  resolution : Option Str
  requestResolution : Option Str
deriving DecidableEq

/-- The `!widget.token` truthiness guard: absent or empty tokens fail it. -/
def tokenTruthy (w : Widget) : Bool :=
  match w.token with
  | none => false
  | some t => !t.isEmpty

/-- The three geo buckets returned by `getGeoData`. -/
structure GeoBuckets where
  interestBySubregion : List Json
  interestByCity : List Json
  interestBy : List Json

def provincesS : Str := "provinces".toList
def regionS : Str := "REGION".toList
def citiesS : Str := "cities".toList
def cityS : Str := "CITY".toList

/-- `widget.resolution || widget.request?.resolution` (main.js line 221):
an empty `widget.resolution` is falsy and falls through. -/
def effResolution (w : Widget) : Option Str :=
  match w.resolution with
  | some s => if s.isEmpty then w.requestResolution else some s
  | none => w.requestResolution

/-- `getInterestOverTime` (main.js lines 174-196).  The second argument is
the decoded `timelineData` of the widget request, or `Except.error ()` when
the request threw after its retries (the catch returns an empty list). -/
def getInterestOverTime (ow : Option Widget) (net : Except Unit (List Json)) :
    List Json :=
  match ow with
  | none => []
  | some w =>
    if tokenTruthy w then
      match net with
      | Except.ok l => l
      | Except.error _ => []
    else []

/-- `getGeoData` (main.js lines 201-233): fetch the `geoMapData` list and
route the whole of it into one bucket chosen by the resolution. -/
def getGeoData (ow : Option Widget) (net : Except Unit (List Json)) : GeoBuckets :=
  match ow with
  | none => { interestBySubregion := [], interestByCity := [], interestBy := [] }
  | some w =>
    if tokenTruthy w then
      match net with
      | Except.error _ =>
        { interestBySubregion := [], interestByCity := [], interestBy := [] }
      | Except.ok d =>
        if effResolution w == some provincesS || effResolution w == some regionS then
          { interestBySubregion := d, interestByCity := [], interestBy := [] }
        else if effResolution w == some citiesS || effResolution w == some cityS then
          { interestBySubregion := [], interestByCity := d, interestBy := [] }
        else
          { interestBySubregion := [], interestByCity := [], interestBy := d }
    else { interestBySubregion := [], interestByCity := [], interestBy := [] }

/-- `getRelatedSearches` (main.js lines 238-285): fetch the `rankedList`
and classify each ranked list into the (top, rising) pair. -/
def getRelatedSearches (ow : Option Widget)
    (net : Except Unit (List (Option (List RankedItemIn)))) :
    List RankedItemOut × List RankedItemOut :=
  match ow with
  | none => ([], [])
  | some w =>
    if tokenTruthy w then
      match net with
      | Except.error _ => ([], [])
      | Except.ok entries => classifyRanked entries
    else ([], [])

/-- The output record built by `processSearchTerm` (main.js lines 373-387). -/
structure NormalizedRecord where
  inputUrlOrTerm : Str
  searchTerm : Str
  geo : Str
  timeRange : Str
  interestOverTime_timelineData : List Json
  interestOverTime_averages : List Json
  interestBySubregion : List Json
  interestByCity : List Json
  interestBy : List Json
  relatedTopics_top : List RankedItemOut
  relatedTopics_rising : List RankedItemOut
  relatedQueries_top : List RankedItemOut
  relatedQueries_rising : List RankedItemOut

/-- The decoded outcomes of the network calls one item can make: the
resolver call (`getExploreWidgets`, whose thrown failure propagates out of
`processSearchTerm`) and the four widget fetches (whose failures are
swallowed by their catch blocks). -/
structure ItemNet where
  resolver : Except Unit (List Widget)
  timeseries : Except Unit (List Json)
  geo : Except Unit (List Json)
  topics : Except Unit (List (Option (List RankedItemIn)))
  queries : Except Unit (List (Option (List RankedItemIn)))

/-- How one call of `processSearchTerm` ends: returning null, returning a
record, or throwing (the resolver failure propagates). -/
inductive ItemOutcome where
  | nullResult
  | record (r : NormalizedRecord)
  | threw

def tsIdS : Str := "TIMESERIES".toList
def geoIdS : Str := "GEO_MAP".toList
def rtIdS : Str := "RELATED_TOPICS".toList
def rqIdS : Str := "RELATED_QUERIES".toList

/-- `processSearchTerm` (main.js lines 313-391).  Returns the outcome plus
whether the resolver endpoint was called at all (false exactly on the
invalid-keyword early return). -/
def processSearchTerm (input : Str) (uv : Option UrlView) (g : Globals)
    (net : ItemNet) : ItemOutcome × Bool :=
  match normalizeItem input uv g with
  | NormResult.invalid => (ItemOutcome.nullResult, false)
  | NormResult.query st eGeo eTime _cat =>
    match net.resolver with
    | Except.error _ => (ItemOutcome.threw, true)
    | Except.ok widgets =>
      if widgets.isEmpty then (ItemOutcome.nullResult, true)
      else
        let tsW := widgets.find? (fun w => w.id == tsIdS)
        let geoW := widgets.find? (fun w => w.id == geoIdS)
        let rtW := widgets.find? (fun w => w.id == rtIdS)
        let rqW := widgets.find? (fun w => w.id == rqIdS)
        let geoData := getGeoData geoW net.geo
        let topics := getRelatedSearches rtW net.topics
        let queries := getRelatedSearches rqW net.queries
        (ItemOutcome.record
          { inputUrlOrTerm := input
            searchTerm := st
            geo := jsOrStr eGeo worldwideS
            timeRange := jsOrStr eTime today12mS
            interestOverTime_timelineData := getInterestOverTime tsW net.timeseries
            interestOverTime_averages := []
            interestBySubregion := geoData.interestBySubregion
            interestByCity := geoData.interestByCity
            interestBy := geoData.interestBy
            relatedTopics_top := topics.1
            relatedTopics_rising := topics.2
            relatedQueries_top := queries.1
            relatedQueries_rising := queries.2 }, true)

/-- Split a string on commas (`term.split(',')`). -/
def splitComma (acc : Str) : Str → List Str
  | [] => [acc.reverse]
  | c :: cs => if c == ',' then acc.reverse :: splitComma [] cs else splitComma (c :: acc) cs

/-- `term.split(',').map(t => t.trim()).filter(t => t)` (main.js line 432). -/
def splitTerms (t : Str) : List Str :=
  ((splitComma [] t).map trimStr).filter (fun u => !u.isEmpty)

/-- The recognised input configuration of `main` (main.js lines 399-410);
`startUrls` is modelled as the list of its url strings. -/
structure RunInput where
  searchTerms : List Str
  startUrls : List Str
  geo : Str
  timeRange : Str
  customTimeRange : Str
  category : JsNum
  isMultiple : Bool
  maxItems : Nat

/-- `itemsToProcess` construction (main.js lines 427-445). -/
def buildItems (inp : RunInput) : List Str :=
  ((inp.searchTerms.map (fun t =>
      if inp.isMultiple && t.contains ',' then splitTerms t else [t])).flatten)
  ++ inp.startUrls.filter (fun u => !u.isEmpty)

/-- How the whole run terminates: `normal` models `main()` resolving (the
process exits through `Actor.exit()`), `fatal` models `main()` rejecting
(the `.catch` handler calls `process.exit(1)`). -/
inductive RunExit where
  | normal
  | fatal
deriving DecidableEq

/-- What the run produced: its exit mode, the records pushed to the dataset
in order, and the inter-item delays (milliseconds) taken at the bottom of
the item loop, in order. -/
structure RunResult where
  exit : RunExit
  emitted : List NormalizedRecord
  delays : List Nat

/-- The item loop of `main` (main.js lines 459-486) over the (already
truncated) item list, starting at index `i`: per-item failures are caught
and logged, a record is pushed exactly when `processSearchTerm` returned
one, and a fixed 2000 ms delay is taken after every non-final item. -/
def runItems (g : Globals) (uvs : Nat → Option UrlView) (nets : Nat → ItemNet) :
    Nat → List Str → List NormalizedRecord × List Nat
  | _, [] => ([], [])
  | i, item :: rest =>
    let out := (processSearchTerm item (uvs i) g (nets i)).1
    let tail := runItems g uvs nets (i + 1) rest
    (match out with
     | ItemOutcome.record r => r :: tail.1
     | _ => tail.1,
     if rest.isEmpty then tail.2 else 2000 :: tail.2)

/-- `main` (main.js lines 396-505): build the item list, stop before the
loop when it is empty (a plain `return`, so `main()` still resolves), else
run the loop over the first `processLimit` items.  `uvs i` and `nets i` are
the URL-parse outcome and the network outcomes for the item at index `i`. -/
def mainRun (inp : RunInput) (uvs : Nat → Option UrlView) (nets : Nat → ItemNet) :
    RunResult :=
  let items := buildItems inp
  if items.isEmpty then { exit := RunExit.normal, emitted := [], delays := [] }
  else
    let g : Globals :=
      { geo := inp.geo
        timeRange := jsOrStr inp.customTimeRange inp.timeRange
        category := inp.category }
    let limit := if inp.maxItems > 0 then min inp.maxItems items.length else items.length
    let r := runItems g uvs nets 0 (items.take limit)
    { exit := RunExit.normal, emitted := r.1, delays := r.2 }

/-- Modelled from the spec: the `hasData` signal of §4.7 (timeline non-empty
OR top-topics non-empty OR top-queries non-empty).  The JavaScript source
computes no such record-level signal; this definition exists to compare the
spec's emission policy with the source's. -/
def hasDataSpec (r : NormalizedRecord) : Bool :=
  !r.interestOverTime_timelineData.isEmpty
  || !r.relatedTopics_top.isEmpty
  || !r.relatedQueries_top.isEmpty

/-- The records `processSearchTerm` assembles along an item list (the
non-null outcomes), independent of any emission policy. -/
def assembledRecords (g : Globals) (uvs : Nat → Option UrlView)
    (nets : Nat → ItemNet) : Nat → List Str → List NormalizedRecord
  | _, [] => []
  | i, item :: rest =>
    match (processSearchTerm item (uvs i) g (nets i)).1 with
    | ItemOutcome.record r => r :: assembledRecords g uvs nets (i + 1) rest
    | _ => assembledRecords g uvs nets (i + 1) rest

/-- At most one of the three geo buckets is populated. -/
def atMostOneGeo (b : GeoBuckets) : Bool :=
  (b.interestBySubregion.isEmpty || b.interestByCity.isEmpty)
  && (b.interestBySubregion.isEmpty || b.interestBy.isEmpty)
  && (b.interestByCity.isEmpty || b.interestBy.isEmpty)

/-- At most one of the three geo fields of a record is populated. -/
def atMostOneGeoRec (r : NormalizedRecord) : Bool :=
  (r.interestBySubregion.isEmpty || r.interestByCity.isEmpty)
  && (r.interestBySubregion.isEmpty || r.interestBy.isEmpty)
  && (r.interestByCity.isEmpty || r.interestBy.isEmpty)

/-! Concrete instances used by the per-claim witnesses and counterexamples. -/

/-- The JSON text of the object with one field a = 1. -/
def jsonAS : Str := "\x7b\"a\":1\x7d".toList

/-- The decoded value of `jsonAS`. -/
def objA : Json := Json.jobj [(['a'], Json.jnum 1)]

/-- A request function that fails on attempt 1 and succeeds afterwards. -/
def c4f : Nat → Except Nat Nat := fun i => if i = 1 then Except.error 1 else Except.ok 7

def coffeeS : Str := "coffee".toList

/-- A TIMESERIES widget descriptor with no token. -/
def c2w : Widget :=
  { id := tsIdS, token := none, resolution := none, requestResolution := none }

/-- Network outcomes for C2: the resolver yields one token-less widget, every
widget fetch fails. -/
def c2net : ItemNet :=
  { resolver := Except.ok [c2w], timeseries := Except.error (), geo := Except.error ()
    topics := Except.error (), queries := Except.error () }

def c2inp : RunInput :=
  { searchTerms := [coffeeS], startUrls := [], geo := [], timeRange := []
    customTimeRange := [], category := JsNum.num 0, isMultiple := false, maxItems := 0 }

/-- The all-empty record the C2 run assembles and emits. -/
def c2rec : NormalizedRecord :=
  { inputUrlOrTerm := coffeeS, searchTerm := coffeeS, geo := worldwideS
    timeRange := today12mS, interestOverTime_timelineData := []
    interestOverTime_averages := [], interestBySubregion := [], interestByCity := []
    interestBy := [], relatedTopics_top := [], relatedTopics_rising := []
    relatedQueries_top := [], relatedQueries_rising := [] }

def c3g : Globals := { geo := [], timeRange := [], category := JsNum.num 0 }

/-- A TIMESERIES widget with a token. -/
def c3wTs : Widget :=
  { id := tsIdS, token := some ['t'], resolution := none, requestResolution := none }

/-- Fully successful network outcomes for one item. -/
def c3netOk : ItemNet :=
  { resolver := Except.ok [c3wTs], timeseries := Except.ok [Json.jnum 7]
    geo := Except.error (), topics := Except.error (), queries := Except.error () }

/-- Network outcomes whose resolver call throws after its retries. -/
def c3netFail : ItemNet :=
  { resolver := Except.error (), timeseries := Except.error (), geo := Except.error ()
    topics := Except.error (), queries := Except.error () }

def c3inp : RunInput :=
  { searchTerms := [['a'], ['b']], startUrls := [], geo := [], timeRange := []
    customTimeRange := [], category := JsNum.num 0, isMultiple := false, maxItems := 0 }

/-- The record item b of the C3 run produces. -/
def c3rec : NormalizedRecord :=
  { inputUrlOrTerm := ['b'], searchTerm := ['b'], geo := worldwideS
    timeRange := today12mS, interestOverTime_timelineData := [Json.jnum 7]
    interestOverTime_averages := [], interestBySubregion := [], interestByCity := []
    interestBy := [], relatedTopics_top := [], relatedTopics_rising := []
    relatedQueries_top := [], relatedQueries_rising := [] }

/-- An arbitrary record, used to instantiate a non-emission statement. -/
def c3recX : NormalizedRecord :=
  { inputUrlOrTerm := [], searchTerm := [], geo := [], timeRange := []
    interestOverTime_timelineData := [], interestOverTime_averages := []
    interestBySubregion := [], interestByCity := [], interestBy := []
    relatedTopics_top := [], relatedTopics_rising := [], relatedQueries_top := []
    relatedQueries_rising := [] }

/-- A GEO_MAP widget whose resolution is the string provinces. -/
def c6wP : Widget :=
  { id := geoIdS, token := some ['t'], resolution := some provincesS
    requestResolution := none }

/-- A GEO_MAP widget whose resolution is REGION. -/
def c6wW : Widget :=
  { id := geoIdS, token := some ['t'], resolution := some regionS
    requestResolution := none }

def c8url : Str := "https://trends.google.com/trends/explore?q=coffee".toList

/-- Parameters of `c8url`: a q parameter only. -/
def c8uv1 : UrlView := { q := some coffeeS, geo := none, date := none, cat := none }

/-- Parameters of a URL carrying q and an explicit cat of 0. -/
def c8uv2 : UrlView := { q := some coffeeS, geo := none, date := none, cat := some zeroS }

/-- Parameters of a URL carrying q and a present-but-empty date parameter
(`...&date=`, for which `searchParams.get` yields the empty string). -/
def c8uv3 : UrlView := { q := some coffeeS, geo := none, date := some [], cat := none }

def c8g : Globals :=
  { geo := [], timeRange := "now 7-d".toList, category := JsNum.num 5 }

def c8gW : Globals :=
  { geo := ['U', 'S'], timeRange := "now 7-d".toList, category := JsNum.num 3 }

def c8netW : ItemNet :=
  { resolver := Except.error (), timeseries := Except.error (), geo := Except.error ()
    topics := Except.error (), queries := Except.error () }

/-- A run input yielding zero items (no terms, no urls). -/
def c9inp : RunInput :=
  { searchTerms := [], startUrls := [], geo := [], timeRange := [], customTimeRange := []
    category := JsNum.num 0, isMultiple := false, maxItems := 0 }

/-- A run input yielding zero items through filtering (one empty url). -/
def c9inpW : RunInput :=
  { searchTerms := [], startUrls := [[]], geo := [], timeRange := [], customTimeRange := []
    category := JsNum.num 0, isMultiple := false, maxItems := 0 }

def c9netW : ItemNet :=
  { resolver := Except.error (), timeseries := Except.error (), geo := Except.error ()
    topics := Except.error (), queries := Except.error () }

def c2g : Globals := { geo := [], timeRange := [], category := JsNum.num 0 }

/-- A ranked item with a plain numeric formatted value. -/
def c5itN : RankedItemIn := { formattedValue := some ['5', '3'], hasData := some false }

/-- A ranked item whose formatted value carries a percent marker. -/
def c5itP : RankedItemIn :=
  { formattedValue := some ['+', '3', '0', '0', '%'], hasData := none }

/-- The JSON text of the one-element array holding 1. -/
def c10s : Str := "[1]".toList

/-! Helper lemmas. -/

theorem strStarts_nil (b : Str) : strStarts b [] = true := by
  cases b <;> rfl

theorem strStarts_append_left (p s : Str) : strStarts (p ++ s) p = true := by
  induction p with
  | nil => exact strStarts_nil s
  | cons c ps ih => simp [strStarts, ih]

theorem strStarts_mono (p q b : Str) (h : strStarts b (p ++ q) = true) :
    strStarts b p = true := by
  induction p generalizing b with
  | nil => exact strStarts_nil b
  | cons c ps ih =>
    cases b with
    | nil => simp [strStarts] at h
    | cons x xs =>
      simp only [List.cons_append, strStarts, Bool.and_eq_true] at h ⊢
      exact ⟨h.1, ih xs h.2⟩

theorem strStarts_app_app (p a b : Str) : strStarts (p ++ a) (p ++ b) = strStarts a b := by
  induction p with
  | nil => rfl
  | cons c ps ih => simp [strStarts, ih]

theorem dropWhile_append_one (p : Char → Bool) (xs : Str) (c : Char)
    (hc : p c = false) :
    List.dropWhile p (xs ++ [c]) = List.dropWhile p xs ++ [c] := by
  induction xs with
  | nil => simp [List.dropWhile, hc]
  | cons x xs ih =>
    simp only [List.cons_append, List.dropWhile_cons]
    cases hx : p x <;> simp [ih]

theorem trimStr_head (b : Str) (c : Char) (u : Str) (hc : isWsChar c = false)
    (h : b.dropWhile isWsChar = c :: u) :
    ∃ t, trimStr b = c :: t := by
  refine ⟨(List.dropWhile isWsChar u.reverse).reverse, ?_⟩
  unfold trimStr
  rw [h]
  simp only [List.reverse_cons]
  rw [dropWhile_append_one _ _ _ hc]
  simp

/-! Claim theorems. -/

/-- Claim C7: for every response body whose first non-whitespace character
is a less-than sign, `parseResponse` fails with the blocked error and never
reaches JSON decoding. -/
theorem c7_html_blocked (b : Str)
    (h : (b.dropWhile isWsChar).head? = some '<') :
    parseResponse b = Except.error PErr.blocked := by
  cases e : b.dropWhile isWsChar with
  | nil => rw [e] at h; simp at h
  | cons c u =>
    rw [e] at h
    simp only [List.head?_cons, Option.some.injEq] at h
    subst h
    obtain ⟨t, ht⟩ := trimStr_head b '<' u (by decide) e
    unfold parseResponse
    rw [ht]
    simp [strStarts, strStarts_nil]

/-- Witness for C7 at the body `<html>`. -/
theorem c7_html_blocked_witness :
    (("<html>".toList).dropWhile isWsChar).head? = some '<'
    ∧ parseResponse ("<html>".toList) = Except.error PErr.blocked :=
  ⟨by decide, c7_html_blocked _ (by decide)⟩

/-- Claim C10: the third branch of the stripping chain of `parseResponse`
(the one testing the leader followed by a real newline) never fires, for any
input, because such bodies are captured by the earlier bare-leader branch;
and decoding a leader-plus-real-newline body equals JSON-parsing the
newline-led suffix, for every suffix. -/
theorem c10_third_branch_unreachable :
    (∀ b : Str, stripBranch b ≠ some 2)
    ∧ (∀ s : Str, parseResponse (xssi4 ++ '\n' :: s)
        = (jsonDecode ('\n' :: s)).mapError (fun _ => PErr.malformed)) := by
  constructor
  · intro b
    unfold stripBranch
    by_cases h1 : strStarts b xssiBsn = true
    · simp [h1]
    · by_cases h2 : strStarts b xssi4 = true
      · simp [h1, h2]
      · have h3 : strStarts b xssiNl = false := by
          cases e : strStarts b xssiNl
          · rfl
          · have e' : strStarts b (xssi4 ++ ['\n']) = true := e
            exact absurd (strStarts_mono xssi4 ['\n'] b e') h2
        simp [h1, h2, h3]
  · intro s
    have hws : isWsChar ')' = false := by decide
    have e : List.dropWhile isWsChar (xssi4 ++ '\n' :: s)
        = ')' :: (']' :: '}' :: aposC :: '\n' :: s) := by
      show List.dropWhile isWsChar (')' :: (']' :: '}' :: aposC :: '\n' :: s)) = _
      rw [List.dropWhile_cons, hws]
      simp
    obtain ⟨t, ht⟩ := trimStr_head _ ')' _ (by decide) e
    have hlt : (')' == '<') = false := by decide
    have hb1 : strStarts (xssi4 ++ '\n' :: s) xssiBsn = false := by
      show strStarts (xssi4 ++ '\n' :: s) (xssi4 ++ [bsC, 'n']) = false
      rw [strStarts_app_app]
      have hnb : ('\n' == bsC) = false := by decide
      simp [strStarts, hnb]
    have hb2 : strStarts (xssi4 ++ '\n' :: s) xssi4 = true :=
      strStarts_append_left xssi4 ('\n' :: s)
    have hstrip : stripXssi (xssi4 ++ '\n' :: s) = '\n' :: s := by
      unfold stripXssi
      simp only [hb1, hb2, Bool.false_eq_true, if_false, if_true]
      rfl
    unfold parseResponse
    rw [ht]
    simp only [strStarts, hlt, Bool.false_and, Bool.false_eq_true, if_false, hstrip]
    cases hj : jsonDecode ('\n' :: s) with
    | ok v => simp [Except.mapError]
    | error e2 => simp [Except.mapError]

/-- Claim C1 (code bug): the body consisting of the six-character escaped
leader variant followed by valid JSON is matched by the first branch of
`parseResponse`, which then strips only five characters, so a stray letter
n is left in front of the JSON and decoding fails; the same JSON suffix on
its own (or behind the real-newline variant) decodes to the object a = 1. -/
theorem c1_escaped_variant_bug :
    stripXssi (xssiBsn ++ jsonAS) = 'n' :: jsonAS
    ∧ parseResponse (xssiBsn ++ jsonAS) = Except.error PErr.malformed
    ∧ jsonDecode jsonAS = Except.ok objA
    ∧ parseResponse (xssi4 ++ '\n' :: jsonAS) = Except.ok objA := by
  exact ⟨rfl, rfl, rfl, rfl⟩

theorem mrl_none (f : Nat → Except ε α) {m a : Nat} (h : ¬ a ≤ m) :
    makeRequestLoop f m a = (0, JsOutcome.undef) := by
  rw [makeRequestLoop]
  simp [h]

theorem mrl_ok (f : Nat → Except ε α) {m a : Nat} {x : α}
    (h : a ≤ m) (hf : f a = Except.ok x) :
    makeRequestLoop f m a = (1, JsOutcome.ret x) := by
  rw [makeRequestLoop]
  simp [h, hf]

theorem mrl_last (f : Nat → Except ε α) {m a : Nat} {e : ε}
    (h : a ≤ m) (h2 : ¬ a < m) (hf : f a = Except.error e) :
    makeRequestLoop f m a = (1, JsOutcome.exn e) := by
  rw [makeRequestLoop]
  simp [h, h2, hf]

theorem mrl_step (f : Nat → Except ε α) {m a : Nat} {e : ε}
    (h : a < m) (hf : f a = Except.error e) :
    makeRequestLoop f m a
      = ((makeRequestLoop f m (a + 1)).1 + 1, (makeRequestLoop f m (a + 1)).2) := by
  rw [makeRequestLoop]
  simp [Nat.le_of_lt h, h, hf]

theorem mrl_succeeds (f : Nat → Except ε α) (k m : Nat) (x : α) (errOf : Nat → ε)
    (hfail : ∀ i, 1 ≤ i → i ≤ k → f i = Except.error (errOf i))
    (hok : f (k + 1) = Except.ok x) (hm : k + 1 ≤ m) :
    ∀ n a, 1 ≤ a → a + n = k + 1 → makeRequestLoop f m a = (n + 1, JsOutcome.ret x) := by
  intro n
  induction n with
  | zero =>
    intro a h1 h2
    have ha : a = k + 1 := by omega
    subst ha
    exact mrl_ok f hm hok
  | succ n ih =>
    intro a h1 h2
    have hfa : f a = Except.error (errOf a) := hfail a h1 (by omega)
    have ham : a < m := by omega
    rw [mrl_step f ham hfa, ih (a + 1) (by omega) (by omega)]

theorem mrl_exhausts (f : Nat → Except ε α) (k m : Nat) (errOf : Nat → ε)
    (hfail : ∀ i, 1 ≤ i → i ≤ k → f i = Except.error (errOf i)) (hmk : m ≤ k) :
    ∀ n a, 1 ≤ a → a + n = m → makeRequestLoop f m a = (n + 1, JsOutcome.exn (errOf m)) := by
  intro n
  induction n with
  | zero =>
    intro a h1 h2
    have ha : a = m := by omega
    subst ha
    exact mrl_last f (by omega) (by omega) (hfail a h1 (by omega))
  | succ n ih =>
    intro a h1 h2
    have hfa : f a = Except.error (errOf a) := hfail a h1 (by omega)
    have ham : a < m := by omega
    rw [mrl_step f ham hfa, ih (a + 1) (by omega) (by omega)]

/-- Claim C4 (amended with the contract precondition that `maxRetries` is at
least 1, as stated for the transport in the spec): a request function that
fails on attempts 1..k and succeeds on attempt k+1 makes `makeRequest`
return the success after exactly k+1 attempts when `maxRetries` is at least
k+1, and throw the failure of attempt `maxRetries` after exactly
`maxRetries` attempts when 1 is at most `maxRetries` and `maxRetries` is at
most k. -/
theorem c4_retry_contract (f : Nat → Except ε α) (k m : Nat) (x : α) (errOf : Nat → ε)
    (hfail : ∀ i, 1 ≤ i → i ≤ k → f i = Except.error (errOf i))
    (hok : f (k + 1) = Except.ok x) :
    (k + 1 ≤ m → makeRequest f m = (k + 1, JsOutcome.ret x))
    ∧ (1 ≤ m → m ≤ k → makeRequest f m = (m, JsOutcome.exn (errOf m))) := by
  constructor
  · intro hm
    have h := mrl_succeeds f k m x errOf hfail hok hm k 1 (le_refl 1) (by omega)
    rw [makeRequest, h]
  · intro h1 h2
    have h := mrl_exhausts f k m errOf hfail h2 (m - 1) 1 (le_refl 1) (by omega)
    rw [makeRequest, h]
    congr 1
    omega

/-- Witness for C4 at the function failing exactly once: with 2 retries it
returns success after 2 attempts, with 1 retry it throws after 1 attempt. -/
theorem c4_retry_contract_witness :
    makeRequest c4f 2 = (2, JsOutcome.ret 7)
    ∧ makeRequest c4f 1 = (1, JsOutcome.exn 1) := by
  have hfail : ∀ i, 1 ≤ i → i ≤ 1 → c4f i = Except.error ((fun _ => 1) i) := by
    intro i hi1 hi2
    have : i = 1 := le_antisymm hi2 hi1
    subst this
    rfl
  have hok : c4f (1 + 1) = Except.ok 7 := rfl
  exact ⟨(c4_retry_contract c4f 1 2 7 (fun _ => 1) hfail hok).1 (by omega),
         (c4_retry_contract c4f 1 1 7 (fun _ => 1) hfail hok).2 (by omega) (by omega)⟩

/-- Counterexample to C4 as stated: with `maxRetries = 0` (which is at most
k = 1) the loop body never runs, so `makeRequest` performs 0 attempts and
returns the JavaScript `undefined` instead of propagating any failure. -/
theorem c4_zero_retries_counterexample :
    c4f 1 = Except.error 1
    ∧ c4f 2 = Except.ok 7
    ∧ makeRequest c4f 0 = (0, JsOutcome.undef)
    ∧ (JsOutcome.undef : JsOutcome Nat Nat) ≠ JsOutcome.exn 1 := by
  refine ⟨rfl, rfl, ?_, by decide⟩
  rw [makeRequest]
  exact mrl_none c4f (by omega)

theorem risingMarker_iff (it : RankedItemOut) :
    risingMarker it = true ↔
      ∃ fv, it.formattedValue = some fv ∧
        (fv.contains '%' = true ∨ fv.map Char.toLower = breakoutS) := by
  cases h : it.formattedValue with
  | none => simp [risingMarker, h]
  | some fv => simp [risingMarker, h]

/-- Claim C5: a ranked list is classified rising exactly when some item has
a formatted value containing a percent sign or case-insensitively equal to
breakout, otherwise top; and the list processed last lands its items in its
bucket, overwriting whatever an earlier list put there (last wins). -/
theorem c5_classifier :
    (∀ items : List RankedItemOut,
        isRisingList items = true ↔ ∃ it ∈ items, risingMarker it = true)
    ∧ (∀ it : RankedItemOut,
        risingMarker it = true ↔
          ∃ fv, it.formattedValue = some fv ∧
            (fv.contains '%' = true ∨ fv.map Char.toLower = breakoutS))
    ∧ (∀ (es : List (Option (List RankedItemIn))) (l : List RankedItemIn),
        classifyRanked (es ++ [some l])
          = (if isRisingList (l.map withHasData)
             then ((classifyRanked es).1, l.map withHasData)
             else (l.map withHasData, (classifyRanked es).2))) := by
  refine ⟨?_, risingMarker_iff, ?_⟩
  · intro items
    simp [isRisingList, List.any_eq_true]
  · intro es l
    simp only [classifyRanked, List.foldl_append, List.foldl_cons, List.foldl_nil]
    rfl

theorem getGeoData_atMostOne (ow : Option Widget) (net : Except Unit (List Json)) :
    atMostOneGeo (getGeoData ow net) = true := by
  cases ow with
  | none => rfl
  | some w =>
    unfold getGeoData
    cases ht : tokenTruthy w with
    | false => simp [ht, atMostOneGeo]
    | true =>
      simp only [ht, if_true]
      cases net with
      | error e => simp [atMostOneGeo]
      | ok d =>
        by_cases h1 :
            (effResolution w == some provincesS || effResolution w == some regionS) = true
        · simp [h1, atMostOneGeo]
        · by_cases h2 :
              (effResolution w == some citiesS || effResolution w == some cityS) = true
          · simp [h1, h2, atMostOneGeo]
          · simp [h1, h2, atMostOneGeo]

theorem processSearchTerm_record_geo (input : Str) (uv : Option UrlView)
    (g : Globals) (net : ItemNet) (r : NormalizedRecord)
    (h : (processSearchTerm input uv g net).1 = ItemOutcome.record r) :
    atMostOneGeoRec r = true := by
  unfold processSearchTerm at h
  cases hn : normalizeItem input uv g with
  | invalid => rw [hn] at h; simp at h
  | query st eGeo eTime cat =>
    rw [hn] at h
    cases hr : net.resolver with
    | error e => rw [hr] at h; simp at h
    | ok widgets =>
      rw [hr] at h
      cases hw : widgets.isEmpty with
      | true => simp [hw] at h
      | false =>
        simp only [hw, Bool.false_eq_true, if_false] at h
        simp only [ItemOutcome.record.injEq] at h
        subst h
        exact getGeoData_atMostOne (widgets.find? (fun w => w.id == geoIdS)) net.geo

/-- Claim C6 (amended: the source also routes the lowercase resolutions
provinces and cities, not only REGION and CITY): a fetched geo payload is
routed whole into exactly one bucket chosen by the effective resolution
(provinces or REGION to subregion, cities or CITY to city, anything else or
absent to country-level interestBy), and every `getGeoData` result and every
assembled record has at most one non-empty geo field. -/
theorem c6_geo_routing :
    (∀ (w : Widget) (d : List Json), tokenTruthy w = true →
        getGeoData (some w) (Except.ok d)
          = (if effResolution w == some provincesS || effResolution w == some regionS then
               { interestBySubregion := d, interestByCity := [], interestBy := [] }
             else if effResolution w == some citiesS || effResolution w == some cityS then
               { interestBySubregion := [], interestByCity := d, interestBy := [] }
             else { interestBySubregion := [], interestByCity := [], interestBy := d }))
    ∧ (∀ ow net, atMostOneGeo (getGeoData ow net) = true)
    ∧ (∀ input uv g net r,
        (processSearchTerm input uv g net).1 = ItemOutcome.record r →
        atMostOneGeoRec r = true) := by
  refine ⟨?_, getGeoData_atMostOne, processSearchTerm_record_geo⟩
  intro w d ht
  unfold getGeoData
  simp [ht]

/-- Witness for C6 at a REGION widget with one payload point, plus an absent
widget. -/
theorem c6_geo_routing_witness :
    getGeoData (some c6wW) (Except.ok [Json.jnum 2])
      = { interestBySubregion := [Json.jnum 2], interestByCity := [], interestBy := [] }
    ∧ atMostOneGeo (getGeoData none (Except.error ())) = true := by
  constructor
  · rw [c6_geo_routing.1 c6wW [Json.jnum 2] rfl]
    rfl
  · exact c6_geo_routing.2.1 none (Except.error ())

/-- Counterexample to C6 as stated: a widget whose resolution hint is the
string provinces — neither REGION nor CITY — has its payload routed into
`interestBySubregion`, not into the country-level `interestBy` bucket that
the claim assigns to every other hint. -/
theorem c6_provinces_counterexample :
    effResolution c6wP = some provincesS
    ∧ provincesS ≠ regionS
    ∧ provincesS ≠ cityS
    ∧ getGeoData (some c6wP) (Except.ok [Json.jnum 1])
        = { interestBySubregion := [Json.jnum 1], interestByCity := [], interestBy := [] }
    ∧ (getGeoData (some c6wP) (Except.ok [Json.jnum 1])).interestBy = [] := by
  exact ⟨rfl, by decide, by decide, rfl, rfl⟩

/-- Claim C2 (amended: the source computes no record-level hasData signal
and the orchestrator applies no such gate — the loop pushes exactly the
records `processSearchTerm` assembles, including all-empty ones): the
emitted list of the item loop equals the list of assembled records. -/
theorem c2_no_hasData_gate (g : Globals) (uvs : Nat → Option UrlView)
    (nets : Nat → ItemNet) (i : Nat) (items : List Str) :
    (runItems g uvs nets i items).1 = assembledRecords g uvs nets i items := by
  induction items generalizing i with
  | nil => rfl
  | cons item rest ih =>
    simp only [runItems, assembledRecords]
    cases (processSearchTerm item (uvs i) g (nets i)).1 <;> simp [ih]

/-- Counterexample to C2 as stated: a run whose single query assembles a
record with empty timeline, empty top topics and empty top queries (so the
spec's hasData signal is false) still emits that record to the dataset. -/
theorem c2_empty_record_emitted :
    (mainRun c2inp (fun _ => none) (fun _ => c2net)).emitted = [c2rec]
    ∧ hasDataSpec c2rec = false
    ∧ c2rec.interestOverTime_timelineData = []
    ∧ c2rec.relatedTopics_top = []
    ∧ c2rec.relatedQueries_top = [] := by
  exact ⟨rfl, rfl, rfl, rfl, rfl⟩

/-- Claim C3 (amended: there is no extended cooldown — the inter-item delay
is the same fixed 2000 ms after every non-final item, whatever the item's
outcome; a resolver failure still yields zero records for its item). -/
theorem c3_uniform_delay :
    (∀ (g : Globals) (uvs : Nat → Option UrlView) (nets : Nat → ItemNet)
        (i : Nat) (items : List Str),
        (runItems g uvs nets i items).2 = List.replicate (items.length - 1) 2000)
    ∧ (∀ (input : Str) (uv : Option UrlView) (g : Globals) (net : ItemNet),
        net.resolver = Except.error () →
        ∀ r, (processSearchTerm input uv g net).1 ≠ ItemOutcome.record r) := by
  constructor
  · intro g uvs nets i items
    induction items generalizing i with
    | nil => rfl
    | cons item rest ih =>
      simp only [runItems]
      cases rest with
      | nil => simp [ih]
      | cons y ys =>
        simp only [List.isEmpty_cons, Bool.false_eq_true, if_false, ih,
          List.length_cons]
        simp [List.replicate_succ]
  · intro input uv g net hres r
    unfold processSearchTerm
    cases hn : normalizeItem input uv g with
    | invalid => simp
    | query st eGeo eTime cat =>
      rw [hres]
      simp

/-- Witness for C3: a two-item run whose first item has a failing resolver
takes the ordinary single 2000 ms inter-item delay, and the failing item
yields no record. -/
theorem c3_uniform_delay_witness :
    (runItems c3g (fun _ => none) (fun _ => c3netFail) 0 [['a'], ['b']]).2
        = List.replicate 1 2000
    ∧ (processSearchTerm ['a'] none c3g c3netFail).1 ≠ ItemOutcome.record c3recX :=
  ⟨c3_uniform_delay.1 c3g (fun _ => none) (fun _ => c3netFail) 0 [['a'], ['b']],
   c3_uniform_delay.2 ['a'] none c3g c3netFail rfl c3recX⟩

/-- Counterexample to C3 as stated: with the first item's resolver failing,
the run still waits exactly the ordinary 2000 ms before the next item — the
same delay as a run in which every resolver call succeeds — so no extended
cooldown exists; the failing item contributes no record. -/
theorem c3_no_extended_cooldown :
    (mainRun c3inp (fun _ => none) (fun i => if i = 0 then c3netFail else c3netOk)).delays
        = [2000]
    ∧ (mainRun c3inp (fun _ => none) (fun i => if i = 0 then c3netFail else c3netOk)).emitted
        = [c3rec]
    ∧ (mainRun c3inp (fun _ => none) (fun _ => c3netOk)).delays = [2000]
    ∧ (mainRun c3inp (fun _ => none) (fun _ => c3netOk)).emitted.length = 2 := by
  exact ⟨rfl, rfl, rfl, rfl⟩

theorem jsOrStr_absorb (a b c : Str) (hb : b.isEmpty = false) :
    jsOrStr (jsOrStr a b) c = jsOrStr a b := by
  cases ha : a.isEmpty <;> simp [jsOrStr, ha, hb]

/-- Claim C8 (amended: the URL branch does not honour the stated
override-only-when-present contract for every field — an absent or
present-but-empty date parameter yields the hard default today 12-m, so
the configured global time-range is never consulted for a parsed URL, and
a present cat parameter equal to 0 (or empty, or unparseable) is falsy and
does not override the global category; keyword and geo come from q and geo
with the empty string for absent, geo overriding the global only when
non-empty; an empty resolved keyword yields the invalid outcome and the
resolver endpoint is never called). -/
theorem c8_normalizer_contract :
    (∀ (input : Str) (uv : Option UrlView) (g : Globals),
        strStarts input httpS = false →
        normalizeItem input uv g
          = (if input.isEmpty then NormResult.invalid
             else NormResult.query input g.geo g.timeRange g.category))
    ∧ (∀ (input : Str) (g : Globals),
        strStarts input httpS = true →
        normalizeItem input none g
          = (if input.isEmpty then NormResult.invalid
             else NormResult.query input g.geo g.timeRange g.category))
    ∧ (∀ (input : Str) (v : UrlView) (g : Globals),
        strStarts input httpS = true →
        normalizeItem input (some v) g
          = (if (v.q.getD []).isEmpty then NormResult.invalid
             else NormResult.query (v.q.getD [])
                 (jsOrStr (v.geo.getD []) g.geo)
                 (jsOrStr (v.date.getD []) today12mS)
                 (jsOrNum (parseIntJs (jsOrStr (v.cat.getD []) zeroS)) g.category)))
    ∧ (∀ (input : Str) (uv : Option UrlView) (g : Globals) (net : ItemNet),
        normalizeItem input uv g = NormResult.invalid →
        processSearchTerm input uv g net = (ItemOutcome.nullResult, false)) := by
  refine ⟨?_, ?_, ?_, ?_⟩
  · intro input uv g h
    simp [normalizeItem, h]
  · intro input g h
    simp [normalizeItem, parseGoogleTrendsUrl, h]
  · intro input v g h
    have habs : ∀ a : Str, jsOrStr (jsOrStr a today12mS) g.timeRange = jsOrStr a today12mS :=
      fun a => jsOrStr_absorb a today12mS g.timeRange rfl
    have hq : ∀ a : Str, jsOrStr a [] = a := by
      intro a
      cases ha : a.isEmpty
      · simp [jsOrStr, ha]
      · simp only [jsOrStr, ha, if_true]
        exact (List.isEmpty_iff.mp ha).symm
    simp [normalizeItem, parseGoogleTrendsUrl, h, habs, hq]
  · intro input uv g net h
    unfold processSearchTerm
    rw [h]

/-- Witness for C8: a bare keyword takes all the global defaults, and the
empty input is rejected without calling the resolver. -/
theorem c8_normalizer_contract_witness :
    normalizeItem ['t', 'e', 'a'] none c8gW
        = NormResult.query ['t', 'e', 'a'] c8gW.geo c8gW.timeRange c8gW.category
    ∧ processSearchTerm [] none c8gW c8netW = (ItemOutcome.nullResult, false) := by
  constructor
  · have h := c8_normalizer_contract.1 ['t', 'e', 'a'] none c8gW rfl
    simpa using h
  · exact c8_normalizer_contract.2.2.2 [] none c8gW c8netW rfl

/-- Counterexample to C8 as stated: for a trends URL with only a q
parameter, the resolved time-range is the hard default today 12-m rather
than the configured global now 7-d (the absent date parameter still
overrides the global), and the same happens for a present-but-empty date
parameter (its empty string is falsy under the JavaScript default); and
with an explicit cat parameter equal to 0 the resolved category is the
global 5, so a parameter present in the URL fails to override. -/
theorem c8_override_counterexample :
    normalizeItem c8url (some c8uv1) c8g
        = NormResult.query coffeeS [] today12mS (JsNum.num 5)
    ∧ today12mS ≠ c8g.timeRange
    ∧ normalizeItem c8url (some c8uv3) c8g
        = NormResult.query coffeeS [] today12mS (JsNum.num 5)
    ∧ c8uv3.date = some []
    ∧ normalizeItem c8url (some c8uv2) c8g
        = NormResult.query coffeeS [] today12mS (JsNum.num 5)
    ∧ JsNum.num 5 ≠ JsNum.num 0
    ∧ parseIntJs zeroS = JsNum.num 0 := by
  exact ⟨rfl, by decide, rfl, rfl, rfl, by decide, rfl⟩

/-- Claim C9 (amended: a run with zero input items stops before the item
loop with nothing emitted, but `main` resolves normally — the error is only
logged, and the non-zero exit path is the rejection handler, which this
path does not take; and no per-item outcome ever makes the run exit
fatally). -/
theorem c9_run_termination :
    (∀ inp uvs nets, (mainRun inp uvs nets).exit = RunExit.normal)
    ∧ (∀ inp uvs nets, (buildItems inp).isEmpty = true →
        mainRun inp uvs nets = { exit := RunExit.normal, emitted := [], delays := [] }) := by
  constructor
  · intro inp uvs nets
    unfold mainRun
    cases h : (buildItems inp).isEmpty <;> simp [h]
  · intro inp uvs nets h
    unfold mainRun
    simp [h]

/-- Witness for C9: an input whose only start url is the empty string
yields zero items and an immediately-normal empty run. -/
theorem c9_run_termination_witness :
    (buildItems c9inpW).isEmpty = true
    ∧ mainRun c9inpW (fun _ => none) (fun _ => c9netW)
        = { exit := RunExit.normal, emitted := [], delays := [] } :=
  ⟨rfl, c9_run_termination.2 c9inpW (fun _ => none) (fun _ => c9netW) rfl⟩

/-- Counterexample to C9 as stated: the zero-items run terminates with the
normal exit (the plain return inside main), not with the fatal non-zero
exit the claim asserts. -/
theorem c9_zero_items_normal_exit :
    mainRun c9inp (fun _ => none) (fun _ => c9netW)
        = { exit := RunExit.normal, emitted := [], delays := [] }
    ∧ RunExit.normal ≠ RunExit.fatal := by
  exact ⟨rfl, by decide⟩

/-- Witness for C10 at a concrete suffix. -/
theorem c10_third_branch_unreachable_witness :
    stripBranch (xssi4 ++ '\n' :: c10s) ≠ some 2
    ∧ parseResponse (xssi4 ++ '\n' :: c10s)
        = (jsonDecode ('\n' :: c10s)).mapError (fun _ => PErr.malformed) :=
  ⟨c10_third_branch_unreachable.1 (xssi4 ++ '\n' :: c10s),
   c10_third_branch_unreachable.2 c10s⟩

/-- Witness for C5: a top list followed by a rising list lands in the two
buckets. -/
theorem c5_classifier_witness :
    classifyRanked [some [c5itN], some [c5itP]]
      = ([withHasData c5itN], [withHasData c5itP]) :=
  (c5_classifier.2.2 [some [c5itN]] [c5itP]).trans rfl

/-- Witness for C2 at the concrete single-item run. -/
theorem c2_no_hasData_gate_witness :
    (runItems c2g (fun _ => none) (fun _ => c2net) 0 [coffeeS]).1
      = assembledRecords c2g (fun _ => none) (fun _ => c2net) 0 [coffeeS] :=
  c2_no_hasData_gate c2g (fun _ => none) (fun _ => c2net) 0 [coffeeS]
